import Mathlib

/-!
Verification of the redis_cpp core of the dennisss/dacha repository.

Shallow embedding of:
  * the incremental RESP protocol parser (`pkg/redis_cpp/redis_resp.h`),
  * command dispatch and the pub/sub handlers (`src/redis_cpp/redis_connection.cpp`,
    `src/redis_cpp/trie.h`),
  * the connection I/O buffering layer and the reactor timer interface
    (`pkg/redis_cpp/poller.h`).

C++ byte buffers (`char *`, `std::vector<char>`, `std::string`) are modeled as
`List UInt8`; C `int` arithmetic is modeled as `Int` (no value in any theorem
below approaches the 32-bit range).  `std::map` / kqueue kernel tables are
modeled as association lists.  External effects (socket writes, the kqueue
system call, the RocksDB store) appear as explicit parameters or result
fields.
-/

/-- Bytes of a string literal (all literals used are ASCII). -/
def bytes (s : String) : List UInt8 :=
  s.toList.map (fun ch => UInt8.ofNat ch.toNat)

/-- Decimal bytes of a natural number, as produced by `stringstream <<`. -/
def natBytes (n : Nat) : List UInt8 := bytes (toString n)

/-- Decimal bytes of an `int`, as produced by `stringstream <<`. -/
def intBytes (i : Int) : List UInt8 := bytes (toString i)

/-- Value of a byte read through a (signed) C `char`, promoted to `int`. -/
def charVal (b : UInt8) : Int :=
  if b.toNat < 128 then (b.toNat : Int) else (b.toNat : Int) - 256

/- ------------------------------------------------------------------ -/
/- RESP protocol values (redis_resp.h: RESPObject and subclasses).     -/
/- ------------------------------------------------------------------ -/

/-- A completed protocol value.  The C++ side is a class hierarchy tagged by a
`RESPType` field; both the `RESPTypeNil`-retagged `RESPArray` and the
`RESPTypeNil`-retagged `RESPBuffer` are represented by `nil` (downstream code
only inspects the tag). -/
inductive RObj where
  | nil
  | inline (s : List UInt8)
  | simple (s : List UInt8)
  | err (s : List UInt8)
  | int (v : Int)
  | bulk (s : List UInt8)
  | arr (items : List RObj)

/-- Buffer flavors built by the `RESPStateString` states. -/
inductive BufKind where
  | simple
  | err
  | inl
deriving DecidableEq

/-- Which header object a length line is being read for. -/
inductive PendKind where
  | integer
  | array
  | bulk
deriving DecidableEq

/-- Enum `RESPState` from redis_resp.h. -/
inductive RESPState where
  | typeS
  | lengthSign
  | length
  | lengthEnd
  | stringS
  | stringEnd
  | data
  | dataEnd1
  | dataEnd2
  | done
  | error
deriving DecidableEq

/-- One `RESPParserStackEntry`: a partially built object plus its progress
counter.  `arrbuf n filled` is an `RESPArray` whose `items` was resized to `n`
with `filled` children installed so far; `databuf n filled` is a `RESPBuffer`
whose `str` was resized to `n` with `filled` bytes copied so far. -/
inductive Frame where
  | strbuf (t : BufKind) (s : List UInt8)
  | pending (t : PendKind)
  | databuf (n : Nat) (filled : List UInt8)
  | arrbuf (n : Nat) (filled : List RObj)

/-- Fields of `RESPParser`.  The stack is kept head-as-top (the C++
`std::vector` pushes at the back). -/
structure RESPParser where
  state : RESPState
  sign : Int
  accum : Int
  stack : List Frame
  latest : Option RObj

/-- Enum `RESPParserStatus`. -/
inductive RESPParserStatus where
  | incomplete
  | invalid
  | done
deriving DecidableEq

def RESPParser.status (p : RESPParser) : RESPParserStatus :=
  if p.state = RESPState.done then RESPParserStatus.done
  else if p.state = RESPState.error then RESPParserStatus.invalid
  else RESPParserStatus.incomplete

/-- The freshly constructed parser.  (The C++ constructor leaves `sign` and
`accum` uninitialized; both are always written in `RESPStateLengthSign` before
being read, so any initial value is observationally equivalent.) -/
def initParser : RESPParser :=
  { state := RESPState.typeS, sign := 1, accum := 0, stack := [], latest := none }

/-- The value a completed frame contributes (`ent.obj` at the moment the
`done` flag is set for a string/data frame). -/
def mkBufVal (t : BufKind) (s : List UInt8) : RObj :=
  match t with
  | BufKind.simple => RObj.simple s
  | BufKind.err => RObj.err s
  | BufKind.inl => RObj.inline s

/-- The `while(done)` pop loop of `RESPParser::parse`: a completed value is
handed to its parent array frame (installing it at the next slot) or, when the
stack empties, becomes `latest` with the parser `Done`. -/
def popDone : RObj → List Frame → RESPState × List Frame × Option RObj
  | v, [] => (RESPState.done, [], some v)
  | v, Frame.arrbuf n filled :: rest =>
      let filled' := filled ++ [v]
      if n ≤ filled'.length then popDone (RObj.arr filled') rest
      else (RESPState.typeS, Frame.arrbuf n filled' :: rest, none)
  | _, f :: rest =>
      -- unreachable: the parent of a completed value is always an array frame
      (RESPState.error, f :: rest, none)

/-- Pop the completed top frame and continue per `popDone`. -/
def popAndContinue (p : RESPParser) (v : RObj) : RESPParser :=
  match p.stack with
  | [] =>
      -- unreachable: the stack is nonempty whenever a value completes
      { p with state := RESPState.error }
  | _ :: rest =>
      match popDone v rest with
      | (st, stk, some v') => { p with state := st, stack := stk, latest := some v' }
      | (st, stk, none) => { p with state := st, stack := stk }

/-- State `RESPStateString`: accumulate raw bytes until CR. -/
def stepString (p : RESPParser) (c : UInt8) : RESPParser :=
  if c = 13 then { p with state := RESPState.stringEnd }
  else
    match p.stack with
    | Frame.strbuf t s :: rest => { p with stack := Frame.strbuf t (s ++ [c]) :: rest }
    | _ => { p with state := RESPState.error }  -- unreachable

/-- State `RESPStateType`: dispatch on the leading type byte.  Any byte other than
`+ - : $ *` starts an inline command: the code pushes an `RESPTypeInline`
buffer, rewinds `i`, and re-processes the byte in the String state. -/
def stepType (p : RESPParser) (c : UInt8) : RESPParser :=
  if c = 43 then
    { p with state := RESPState.stringS, stack := Frame.strbuf BufKind.simple [] :: p.stack }
  else if c = 45 then
    { p with state := RESPState.stringS, stack := Frame.strbuf BufKind.err [] :: p.stack }
  else if c = 58 then
    { p with state := RESPState.lengthSign, stack := Frame.pending PendKind.integer :: p.stack }
  else if c = 42 then
    { p with state := RESPState.lengthSign, stack := Frame.pending PendKind.array :: p.stack }
  else if c = 36 then
    { p with state := RESPState.lengthSign, stack := Frame.pending PendKind.bulk :: p.stack }
  else
    stepString
      { p with state := RESPState.stringS, stack := Frame.strbuf BufKind.inl [] :: p.stack } c

/-- State `RESPStateLength`: any byte other than CR is folded into the accumulator
as `accum * 10 + (c - '0')` — there is no digit validation in the source. -/
def stepLength (p : RESPParser) (c : UInt8) : RESPParser :=
  if c = 13 then { p with state := RESPState.lengthEnd }
  else { p with accum := p.accum * 10 + (charVal c - 48) }

/-- State `RESPStateLengthEnd`: require LF, then act on the signed accumulator
according to the header object on top of the stack. -/
def stepLengthEnd (p : RESPParser) (c : UInt8) : RESPParser :=
  if c ≠ 10 then { p with state := RESPState.error }
  else
    let a := p.accum * p.sign
    let p := { p with accum := a }
    match p.stack with
    | Frame.pending PendKind.integer :: _ => popAndContinue p (RObj.int a)
    | Frame.pending PendKind.array :: rest =>
        if a < 0 then popAndContinue p RObj.nil
        else if a = 0 then popAndContinue p (RObj.arr [])
        else { p with state := RESPState.typeS, stack := Frame.arrbuf a.toNat [] :: rest }
    | Frame.pending PendKind.bulk :: rest =>
        if a < 0 then popAndContinue p RObj.nil
        else if a = 0 then { p with state := RESPState.dataEnd1, stack := Frame.databuf 0 [] :: rest }
        else { p with state := RESPState.data, stack := Frame.databuf a.toNat [] :: rest }
    | _ => { p with state := RESPState.error }  -- the switch's default: GOTO_ERROR

/-- State `RESPStateData`: the source memcpy's `min(len - i, size - arg)` bytes at
once; processed here one byte at a time, which consumes the same bytes and
reaches the same state. -/
def stepData (p : RESPParser) (c : UInt8) : RESPParser :=
  match p.stack with
  | Frame.databuf n filled :: rest =>
      if filled.length < n then
        let filled' := filled ++ [c]
        if n ≤ filled'.length then
          { p with state := RESPState.dataEnd1, stack := Frame.databuf n filled' :: rest }
        else { p with stack := Frame.databuf n filled' :: rest }
      else
        -- unreachable (a full buffer leaves Data immediately); the code would
        -- take 0 bytes, move to DataEnd1 and re-process this byte there
        if c = 13 then { p with state := RESPState.dataEnd2 }
        else { p with state := RESPState.error }
  | _ => { p with state := RESPState.error }  -- unreachable

/-- State `RESPStateStringEnd`: require LF then complete the buffer object. -/
def stepStringEnd (p : RESPParser) (c : UInt8) : RESPParser :=
  if c ≠ 10 then { p with state := RESPState.error }
  else
    match p.stack with
    | Frame.strbuf t s :: _ => popAndContinue p (mkBufVal t s)
    | _ => { p with state := RESPState.error }  -- unreachable

/-- State `RESPStateDataEnd2`: require LF then complete the bulk string. -/
def stepDataEnd2 (p : RESPParser) (c : UInt8) : RESPParser :=
  if c ≠ 10 then { p with state := RESPState.error }
  else
    match p.stack with
    | Frame.databuf _ filled :: _ => popAndContinue p (RObj.bulk filled)
    | _ => { p with state := RESPState.error }  -- unreachable

/-- One byte of `RESPParser::parse`'s `switch(state)`. -/
def step (p : RESPParser) (c : UInt8) : RESPParser :=
  match p.state with
  | RESPState.typeS => stepType p c
  | RESPState.lengthSign =>
      let p := { p with state := RESPState.length, accum := 0, sign := 1 }
      if c = 45 then { p with sign := -1 } else stepLength p c
  | RESPState.length => stepLength p c
  | RESPState.lengthEnd => stepLengthEnd p c
  | RESPState.stringS => stepString p c
  | RESPState.stringEnd => stepStringEnd p c
  | RESPState.data => stepData p c
  | RESPState.dataEnd1 =>
      if c ≠ 13 then { p with state := RESPState.error }
      else { p with state := RESPState.dataEnd2 }
  | RESPState.dataEnd2 => stepDataEnd2 p c
  | RESPState.done => p
  | RESPState.error => p

/-- Model of `RESPParser::parse(buf, len)`: processes bytes in order, stopping (and
consuming nothing further) once the state is `Done` or `Error`.  Returns the
resulting parser and the number of bytes consumed in this call. -/
def RESPParser.parse (p : RESPParser) : List UInt8 → RESPParser × Nat
  | [] => (p, 0)
  | c :: rest =>
      if p.state = RESPState.done ∨ p.state = RESPState.error then (p, 0)
      else
        let out := RESPParser.parse (step p c) rest
        (out.1, out.2 + 1)

/-- Model of `RESPParser::grab()`: the completed value, after the patch that upgrades a
single inline line into a one-element array holding it as a bulk string. -/
def grabUpgrade : RObj → RObj
  | RObj.inline s => RObj.arr [RObj.bulk s]
  | v => v

def RESPParser.grab (p : RESPParser) : Option RObj :=
  p.latest.map grabUpgrade

/-- Successive `parse` calls on consecutive chunks. -/
def feedChunks (p : RESPParser) (cs : List (List UInt8)) : RESPParser :=
  cs.foldl (fun q c => (q.parse c).1) p

/-- Predicate: `s` is a valid RESP encoding of one value: a single `parse` call over `s`
ends `Done` having consumed all of `s`. -/
def validRESP (s : List UInt8) : Prop :=
  (initParser.parse s).1.state = RESPState.done ∧ (initParser.parse s).2 = s.length

/- ------------------------------------------------------------------ -/
/- Command trie (trie.h) and dispatch (redis_connection.cpp).          -/
/- ------------------------------------------------------------------ -/

/-- A command table entry (redis.h `RedisCommandEntry`).  The
member-function-pointer `handler` is identified by the entry itself; the
in-class initializer defaults `allowInSubMode` to `false`. -/
structure RedisCommandEntry where
  name : String
  minArgs : Int
  maxArgs : Int
  allowInSubMode : Bool := false
deriving DecidableEq

/-- A 256-way trie node (trie.h `TrieEntry<T>` with `T = RedisCommandEntry`).
The `children` vector of 256 nullable pointers is modeled as an association
list from byte to child. -/
inductive TrieEntry where
  | node (value : Option RedisCommandEntry) (children : List (UInt8 × TrieEntry))

def lookupChild : List (UInt8 × TrieEntry) → UInt8 → Option TrieEntry
  | [], _ => none
  | (b, t) :: rest, c => if b = c then some t else lookupChild rest c

def setChild : List (UInt8 × TrieEntry) → UInt8 → TrieEntry → List (UInt8 × TrieEntry)
  | [], c, t => [(c, t)]
  | (b, t0) :: rest, c, t => if b = c then (c, t) :: rest else (b, t0) :: setChild rest c t

/-- Model of `Trie::add`: walk the bytes of the key, creating missing children, and set
the value at the terminal node. -/
def TrieEntry.add : TrieEntry → List UInt8 → RedisCommandEntry → TrieEntry
  | TrieEntry.node v ch, [], val => TrieEntry.node (some val) ch
  | TrieEntry.node v ch, c :: rest, val =>
      let child := (lookupChild ch c).getD (TrieEntry.node none [])
      TrieEntry.node v (setChild ch c (TrieEntry.add child rest val))

/-- Model of `Trie::get`: walk exactly the key's bytes; missing edge or absent terminal
value is "not found". -/
def TrieEntry.get : TrieEntry → List UInt8 → Option RedisCommandEntry
  | TrieEntry.node v _, [] => v
  | TrieEntry.node _ ch, c :: rest =>
      match lookupChild ch c with
      | none => none
      | some child => TrieEntry.get child rest

/-- Table `RedisCommandsList` from redis_connection.cpp.  `PUBLISH` and `COMMAND` do
not set `allowInSubMode`, so they get the in-class default `false`. -/
def RedisCommandsList : List RedisCommandEntry :=
  [ { name := "GET", minArgs := 1, maxArgs := 1 },
    { name := "SET", minArgs := 2, maxArgs := 4 },
    { name := "COMMAND", minArgs := 0, maxArgs := 0 },
    { name := "SUBSCRIBE", minArgs := 1, maxArgs := 4096, allowInSubMode := true },
    { name := "UNSUBSCRIBE", minArgs := 0, maxArgs := 4096, allowInSubMode := true },
    { name := "PUBLISH", minArgs := 2, maxArgs := 2 } ]

/-- Model of `RedisServer::Init()`: the global trie after inserting every command. -/
def RedisCommandStore : TrieEntry :=
  RedisCommandsList.foldl (fun t e => t.add (bytes e.name) e) (TrieEntry.node none [])

/-- Function `toupper` on a byte (ASCII, "C" locale). -/
def toupperB (b : UInt8) : UInt8 :=
  if 97 ≤ b.toNat ∧ b.toNat ≤ 122 then b - 32 else b

/-- The dispatch loop's per-item check and extraction: every item must be a
BulkString; returns their byte contents. -/
def bulkArgs : List RObj → Option (List (List UInt8))
  | [] => some []
  | RObj.bulk s :: rest =>
      match bulkArgs rest with
      | some l => some (s :: l)
      | none => none
  | _ :: _ => none

/-- Outcome of `RedisConnection::run_command`: either a single reply written
directly (no handler invoked), or control transferred to the bound handler of
the resolved entry with the arguments (command name excluded). -/
inductive DispatchResult where
  | reply (msg : List UInt8)
  | handler (entry : RedisCommandEntry) (args : List (List UInt8))
deriving DecidableEq

/-- An inline error reply per §7 (`-<message>\r\n`). -/
def isErrorReply (m : List UInt8) : Prop := m.head? = some 45

instance (m : List UInt8) : Decidable (isErrorReply m) := by
  unfold isErrorReply; infer_instance

/-- Model of `RedisConnection::run_command` up to the handler boundary. -/
def run_command (subsriberMode : Bool) (pObj : RObj) : DispatchResult :=
  match pObj with
  | RObj.arr items =>
      match bulkArgs items with
      | none => DispatchResult.reply (bytes "-Expected request to be an array of bulk strings\r\n")
      | some [] => DispatchResult.reply (bytes "+OK\r\n")
      | some (cmd0 :: args) =>
          let cmd := cmd0.map toupperB
          match RedisCommandStore.get cmd with
          | none => DispatchResult.reply (bytes "-unknown command '" ++ cmd ++ bytes "'\r\n")
          | some entry =>
              if (args.length : Int) < entry.minArgs ∨ (args.length : Int) > entry.maxArgs then
                DispatchResult.reply
                  (bytes "-wrong number of arguments for '" ++ cmd ++ bytes "' command\r\n")
              else if subsriberMode && !entry.allowInSubMode then
                DispatchResult.reply (bytes "-not allowed in subscription mode\r\n")
              else DispatchResult.handler entry args
  | _ => DispatchResult.reply (bytes "-Command is not an array\r\n")

/- ------------------------------------------------------------------ -/
/- Pub/sub room registry and handlers (redis_connection.cpp).          -/
/- ------------------------------------------------------------------ -/

/-- Connections are identified by an id; `RedisServer::allRooms` maps a room
name to the ordered vector of subscribed connections. -/
abbrev Registry := List (List UInt8 × List Nat)

/-- Model of `std::map::find`. -/
def mapFind : Registry → List UInt8 → Option (List Nat)
  | [], _ => none
  | (k, v) :: rest, key => if k = key then some v else mapFind rest key

/-- Model of the `std::map::operator[]`-style update-or-insert. -/
def mapSet : Registry → List UInt8 → List Nat → Registry
  | [], key, v => [(key, v)]
  | (k, v0) :: rest, key, v =>
      if k = key then (key, v) :: rest else (k, v0) :: mapSet rest key v

/-- Per-connection pub/sub state (`RedisConnection`'s `subsriberMode` flag —
spelled as in the source — and `rooms` vector). -/
structure ConnState where
  subsriberMode : Bool
  rooms : List (List UInt8)
deriving DecidableEq

/-- The per-room reply of SUBSCRIBE:
`*3\r\n $9\r\nsubscribe\r\n $<len>\r\n<room>\r\n :<count>\r\n`. -/
def subscribeReply (room : List UInt8) (count : Nat) : List UInt8 :=
  bytes "*3\r\n$9\r\nsubscribe\r\n$" ++ natBytes room.length ++ bytes "\r\n" ++ room ++
    bytes "\r\n:" ++ natBytes count ++ bytes "\r\n"

/-- Body of `run_command_subscribe`'s loop for one room argument: skip rooms
already in the connection's set; otherwise append to the connection's set and
to the (lazily created) registry entry; in both cases emit the reply with the
connection's current room count. -/
def subscribeOne (self : Nat) (acc : ConnState × Registry × List (List UInt8))
    (room : List UInt8) : ConnState × Registry × List (List UInt8) :=
  let st := acc.1
  let reg := acc.2.1
  let ws := acc.2.2
  if room ∈ st.rooms then
    (st, reg, ws ++ [subscribeReply room st.rooms.length])
  else
    let rooms' := st.rooms ++ [room]
    let reg' := mapSet reg room ((mapFind reg room).getD [] ++ [self])
    ({ st with rooms := rooms' }, reg', ws ++ [subscribeReply room rooms'.length])

/-- Model of `RedisConnection::run_command_subscribe`: sets `subsriberMode`, then runs
the loop over the room arguments.  Returns the connection state, the registry,
and the replies written to this connection, in order. -/
def run_command_subscribe (self : Nat) (st : ConnState) (reg : Registry)
    (args : List (List UInt8)) : ConnState × Registry × List (List UInt8) :=
  args.foldl (subscribeOne self) ({ st with subsriberMode := true }, reg, [])

/-- Model of `RedisConnection::run_command_unsubscribe`: the body only computes the
locals `unsubscribeAll` and `argc` and then ends at a `// TODO:` — it removes
nothing, writes nothing, and leaves `subsriberMode` unchanged. -/
def run_command_unsubscribe (st : ConnState) (reg : Registry)
    (args : List (List UInt8)) : ConnState × Registry × List (List UInt8) :=
  (st, reg, [])

/-- The fan-out message of PUBLISH:
`*3\r\n $7\r\nmessage\r\n $<len>\r\n<room>\r\n $<len>\r\n<payload>\r\n`. -/
def publishMessage (room value : List UInt8) : List UInt8 :=
  bytes "*3\r\n$7\r\nmessage\r\n$" ++ natBytes room.length ++ bytes "\r\n" ++ room ++
    bytes "\r\n$" ++ natBytes value.length ++ bytes "\r\n" ++ value ++ bytes "\r\n"

/-- Result of PUBLISH: the `(connection, message)` writes to subscribers in
registry order, and the reply written to the publisher. -/
structure PublishResult where
  sends : List (Nat × List UInt8)
  reply : List UInt8

/-- Model of `RedisConnection::run_command_publish`.  The local `int nsent;` is only
assigned on the branch where the room is found; on the absent-room branch the
code formats the *uninitialized* local into the reply, which we model by the
explicit parameter `nsent0` standing for the indeterminate initial value. -/
def run_command_publish (reg : Registry) (room value : List UInt8) (nsent0 : Int) :
    PublishResult :=
  match mapFind reg room with
  | none =>
      { sends := [], reply := bytes ":" ++ intBytes nsent0 ++ bytes "\r\n" }
  | some conns =>
      let msg := publishMessage room value
      { sends := conns.map (fun cid => (cid, msg)),
        reply := bytes ":" ++ natBytes conns.length ++ bytes "\r\n" }

/- ------------------------------------------------------------------ -/
/- Connection I/O layer (poller.h IOHandler::write).                   -/
/- ------------------------------------------------------------------ -/

/-- The fields of `IOHandler` that `write` touches: the pending output buffer
and the last write budget reported by the reactor. -/
structure IOHandler where
  write_buf : List UInt8
  write_avail : Int
deriving DecidableEq

/-- Model of `IOHandler::write(buf, len)`.

External inputs are explicit: `res` is the return value of the
`::write(fd, buf, min(write_avail, len))` system call on the fast path
(`res ≤ min(write_avail, len)`, negative on error), `extra` is the memory
that happens to follow the input buffer (the source can read past the end of
the input, see below), and `toggleOk` says whether re-arming Writable interest
succeeds.

The source advances the data pointer with `buf += len` *after* `len -= res`,
so when a fast-path write sends only part of the input the bytes appended to
`write_buf` start at offset `len - res` of the input (and run `len - res`
bytes from there), not at offset `res`. -/
def IOHandler.write (st : IOHandler) (input extra : List UInt8) (res : Int)
    (toggleOk : Bool) : Int × IOHandler :=
  let mem := input ++ extra
  let len0 : Int := input.length
  if st.write_buf.length = 0 ∧ st.write_avail > 0 then
    if res < 0 then (res, st)
    else
      let len := len0 - res
      if len = 0 then (res, st)
      else
        -- append `len` bytes starting at `buf + len` (offset len0 - res)
        let slice := (mem.drop len.toNat).take len.toNat
        let st' := { st with write_buf := st.write_buf ++ slice }
        if st.write_buf.length = 0 ∧ toggleOk = false then (-1, st')
        else (res + len, st')
  else
    if len0 = 0 then (0, st)
    else
      let slice := (mem.drop 0).take len0.toNat
      let st' := { st with write_buf := st.write_buf ++ slice }
      if st.write_buf.length = 0 ∧ toggleOk = false then (-1, st')
      else (len0, st')

/- ------------------------------------------------------------------ -/
/- Reactor timers (poller.h Poller::setTimeout / clearTimeout).        -/
/- ------------------------------------------------------------------ -/

/-- The kernel's kqueue `EVFILT_TIMER` table, per the kqueue manual page the
source links: one timer per ident; `EV_ADD` inserts or updates the timer for
its ident, `EV_DELETE` removes it or fails with ENOENT if absent.  Each entry
is `(ident, period in milliseconds)`. -/
structure KQueueState where
  timers : List (Int × Int)
deriving DecidableEq

def keventAddTimer (kq : KQueueState) (ident period : Int) : KQueueState :=
  if kq.timers.any (fun t => t.1 = ident) then
    { timers := kq.timers.map (fun t => if t.1 = ident then (ident, period) else t) }
  else
    { timers := kq.timers ++ [(ident, period)] }

/-- Returns the `kevent` call's result (`-1` = ENOENT) and the new table. -/
def keventDeleteTimer (kq : KQueueState) (ident : Int) : Int × KQueueState :=
  if kq.timers.any (fun t => t.1 = ident) then
    (0, { timers := kq.timers.filter (fun t => t.1 ≠ ident) })
  else
    (-1, kq)

/-- Timer-relevant state of `Poller`. -/
structure Poller where
  kq : KQueueState
  lastTimerId : Int
deriving DecidableEq

/-- Model of `Poller::setTimeout(ms, data, recurring)`.  The source computes a fresh
`id = ++lastTimerId` and returns it, but the `EV_SET` call is
`EV_SET(&event, 1, EVFILT_TIMER, EV_ADD | EV_ENABLE, NOTE_MSECONDS, 5000, data)`:
the kernel ident is the constant `1` and the period the constant `5000`,
independent of both `id` and `ms`. -/
def Poller.setTimeout (p : Poller) (ms : Int) : Int × Poller :=
  let id := p.lastTimerId + 1
  let kq' := keventAddTimer p.kq 1 5000
  (id, { kq := kq', lastTimerId := id })

/-- Model of `Poller::clearTimeout(id)`: issues `EV_SET(&event, id, EVFILT_TIMER,
EV_DELETE, 0, 0, NULL)`; returns `1` if the `kevent` call fails (no such
ident), `0` on success. -/
def Poller.clearTimeout (p : Poller) (id : Int) : Int × Poller :=
  let r := keventDeleteTimer p.kq id
  if r.1 = -1 then (1, { p with kq := r.2 }) else (0, { p with kq := r.2 })

/- ------------------------------------------------------------------ -/
/- Theorems.                                                           -/
/- ------------------------------------------------------------------ -/

/-- Helper: a parse call on a parser already in a final state consumes
nothing and changes nothing (the `case RESPStateDone/RESPStateError` arm). -/
theorem parse_terminal (p : RESPParser) (l : List UInt8)
    (h : p.state = RESPState.done ∨ p.state = RESPState.error) :
    p.parse l = (p, 0) := by
  cases l with
  | nil => rfl
  | cons c rest =>
      simp only [RESPParser.parse]
      rw [if_pos h]

/-- Helper: parsing a concatenation leaves the parser exactly where parsing
the two pieces in successive calls leaves it. -/
theorem parse_append_fst (p : RESPParser) (a b : List UInt8) :
    (p.parse (a ++ b)).1 = ((p.parse a).1.parse b).1 := by
  induction a generalizing p with
  | nil => simp [RESPParser.parse]
  | cons c a ih =>
      by_cases h : p.state = RESPState.done ∨ p.state = RESPState.error
      · rw [show (c :: a) ++ b = c :: (a ++ b) from rfl,
          parse_terminal p (c :: (a ++ b)) h, parse_terminal p (c :: a) h]
        simp [parse_terminal p b h]
      · simp only [List.cons_append, RESPParser.parse, if_neg h]
        exact ih (step p c)

/-- Helper: feeding chunks across successive parse calls is the same as one
parse call over their concatenation. -/
theorem feedChunks_join (p : RESPParser) (cs : List (List UInt8)) :
    feedChunks p cs = (p.parse cs.flatten).1 := by
  induction cs generalizing p with
  | nil => simp [feedChunks, RESPParser.parse]
  | cons c cs ih =>
      show feedChunks ((p.parse c).1) cs = _
      rw [ih, ← parse_append_fst]
      rfl

/-- C3: for every byte sequence that is a valid RESP encoding of a value and
every split of it into consecutive non-empty chunks, feeding the chunks to the
parser across successive `parse()` calls reaches `Done` status and `grab()`
yields the same protocol value as feeding the whole sequence in one call —
indeed the entire parser state coincides. -/
theorem resp_chunking_invariance (s : List UInt8) (cs : List (List UInt8))
    (hjoin : cs.flatten = s) (hne : ∀ c ∈ cs, c ≠ ([] : List UInt8))
    (hvalid : validRESP s) :
    feedChunks initParser cs = (initParser.parse s).1 ∧
    (feedChunks initParser cs).status = RESPParserStatus.done ∧
    (feedChunks initParser cs).grab = (initParser.parse s).1.grab := by
  have h : feedChunks initParser cs = (initParser.parse s).1 := by
    rw [feedChunks_join, hjoin]
  refine ⟨h, ?_, by rw [h]⟩
  rw [h, RESPParser.status, if_pos hvalid.1]

/-- Witness for C3 at `"*2\r\n$1\r\na\r\n:5\r\n"` split into three chunks. -/
theorem resp_chunking_invariance_witness :
    feedChunks initParser [bytes "*2\r\n$1", bytes "\r\na\r", bytes "\n:5\r\n"]
      = (initParser.parse (bytes "*2\r\n$1\r\na\r\n:5\r\n")).1 :=
  (resp_chunking_invariance (bytes "*2\r\n$1\r\na\r\n:5\r\n")
    [bytes "*2\r\n$1", bytes "\r\na\r", bytes "\n:5\r\n"]
    (by decide) (by decide) ⟨rfl, rfl⟩).1

/-- C7 counterexample: the length line of `":a\r\n"` contains the non-digit
byte `'a'`, yet the parser does not transition to `Error`: it folds the byte
into the accumulator as `'a' - '0' = 49` and finishes `Done` with the integer
49. -/
theorem length_nondigit_not_invalid :
    (initParser.parse (bytes ":a\r\n")).1.status = RESPParserStatus.done ∧
    (initParser.parse (bytes ":a\r\n")).1.latest = some (RObj.int 49) :=
  ⟨rfl, rfl⟩

/-- C7 (amended): a byte of a length field that is not the CR terminator —
digit or not — is folded into the accumulator as `accum * 10 + (c - '0')`
and the parser stays in the `Length` state with status `Incomplete`; no
transition to `Error` occurs on a non-digit.  (In length parsing, only a
non-LF byte after the CR reaches the `Error` state.) -/
theorem length_nondigit_accumulates (p : RESPParser) (c : UInt8)
    (hst : p.state = RESPState.length) (hc : c ≠ 13) :
    (step p c).state = RESPState.length ∧
    (step p c).accum = p.accum * 10 + (charVal c - 48) ∧
    (step p c).status = RESPParserStatus.incomplete := by
  obtain ⟨st, sg, a, stk, lat⟩ := p
  simp only at hst
  subst hst
  simp [step, stepLength, hc, RESPParser.status]

/-- Witness for C7 (amended) at the byte `'a'` (97) in the Length state. -/
theorem length_nondigit_accumulates_witness :
    (step ⟨RESPState.length, 1, 0, [Frame.pending PendKind.integer], none⟩ 97).state
        = RESPState.length ∧
    (step ⟨RESPState.length, 1, 0, [Frame.pending PendKind.integer], none⟩ 97).accum
        = 0 * 10 + (charVal 97 - 48) ∧
    (step ⟨RESPState.length, 1, 0, [Frame.pending PendKind.integer], none⟩ 97).status
        = RESPParserStatus.incomplete :=
  length_nondigit_accumulates ⟨RESPState.length, 1, 0, [Frame.pending PendKind.integer], none⟩
    97 rfl (by decide)

/-- Helper: from the String state with a single buffer frame, a CR-free line
followed by CRLF accumulates the line into the buffer and completes it. -/
theorem parse_string_run (t : BufKind) (acc rest : List UInt8) (sg a : Int)
    (lat : Option RObj) (h : ∀ b ∈ rest, b ≠ (13 : UInt8)) :
    RESPParser.parse ⟨RESPState.stringS, sg, a, [Frame.strbuf t acc], lat⟩
        (rest ++ [13, 10]) =
      (⟨RESPState.done, sg, a, [], some (mkBufVal t (acc ++ rest))⟩, rest.length + 2) := by
  induction rest generalizing acc with
  | nil =>
      simp only [List.nil_append, List.append_nil]
      rfl
  | cons b rest ih =>
      have hb : b ≠ (13 : UInt8) := h b (List.mem_cons_self b rest)
      have h' : ∀ x ∈ rest, x ≠ (13 : UInt8) := fun x hx => h x (List.mem_cons_of_mem b hx)
      simp only [List.cons_append, RESPParser.parse, List.append_eq, if_neg (by decide :
        ¬(RESPState.stringS = RESPState.done ∨ RESPState.stringS = RESPState.error))]
      have hstep : step ⟨RESPState.stringS, sg, a, [Frame.strbuf t acc], lat⟩ b
          = ⟨RESPState.stringS, sg, a, [Frame.strbuf t (acc ++ [b])], lat⟩ := by
        simp [step, stepString, hb]
      rw [hstep, ih (acc ++ [b]) h']
      simp only [Prod.mk.injEq, RESPParser.mk.injEq, List.append_assoc,
        List.singleton_append, List.length_cons]

/-- C8: an input whose first byte is none of the five RESP type bytes
(`+ - : $ *`) is parsed as an inline command: the CRLF-terminated line
completes the parse, and `grab()` returns a one-element Array holding the
line's content as a BulkString. -/
theorem inline_command_parse (line : List UInt8)
    (hcr : ∀ b ∈ line, b ≠ (13 : UInt8))
    (hhead : ∀ b, line.head? = some b →
      b ≠ 43 ∧ b ≠ 45 ∧ b ≠ 58 ∧ b ≠ 36 ∧ b ≠ 42) :
    (initParser.parse (line ++ [13, 10])).1.status = RESPParserStatus.done ∧
    (initParser.parse (line ++ [13, 10])).1.grab = some (RObj.arr [RObj.bulk line]) := by
  cases line with
  | nil => exact ⟨rfl, rfl⟩
  | cons b rest =>
      obtain ⟨h43, h45, h58, h36, h42⟩ := hhead b rfl
      have hb : b ≠ (13 : UInt8) := hcr b (List.mem_cons_self b rest)
      have h' : ∀ x ∈ rest, x ≠ (13 : UInt8) := fun x hx => hcr x (List.mem_cons_of_mem b hx)
      have hstep : step initParser b
          = ⟨RESPState.stringS, 1, 0, [Frame.strbuf BufKind.inl [b]], none⟩ := by
        simp [step, initParser, stepType, stepString, h43, h45, h58, h36, h42, hb]
      have hif : ¬(initParser.state = RESPState.done ∨ initParser.state = RESPState.error) := by
        decide
      have hparse : (initParser.parse ((b :: rest) ++ [13, 10])).1
          = ⟨RESPState.done, 1, 0, [], some (mkBufVal BufKind.inl ([b] ++ rest))⟩ := by
        simp only [List.cons_append, RESPParser.parse, List.append_eq, if_neg hif]
        rw [hstep, parse_string_run BufKind.inl [b] rest 1 0 none h']
        simp
      rw [hparse]
      exact ⟨rfl, rfl⟩

/-- Witness for C8: parsing the bare line `"PING\r\n"` yields, after `grab()`,
a one-element Array containing BulkString `"PING"`. -/
theorem inline_command_parse_witness :
    (initParser.parse (bytes "PING" ++ [13, 10])).1.status = RESPParserStatus.done ∧
    (initParser.parse (bytes "PING" ++ [13, 10])).1.grab
      = some (RObj.arr [RObj.bulk (bytes "PING")]) :=
  inline_command_parse (bytes "PING") (by decide) (by decide)

/-- C2 counterexample: dispatch of the empty top-level Array writes the
SimpleString reply `+OK\r\n` — not an error reply — and invokes no handler. -/
theorem empty_array_replies_ok :
    run_command false (RObj.arr []) = DispatchResult.reply (bytes "+OK\r\n") ∧
    ¬ isErrorReply (bytes "+OK\r\n") :=
  ⟨rfl, by decide⟩

/-- C2 (amended): for every completed protocol value that is a top-level
Array with zero elements, dispatch writes the reply `+OK\r\n` (the
`RESPOKConst` fast path, not an error reply) to the connection and does not
invoke any command handler. -/
theorem empty_array_dispatch (subsriberMode : Bool) :
    run_command subsriberMode (RObj.arr []) = DispatchResult.reply (bytes "+OK\r\n") :=
  rfl

/-- Helper: extracting bulk contents from a list of BulkStrings succeeds. -/
theorem bulkArgs_map (l : List (List UInt8)) :
    bulkArgs (l.map RObj.bulk) = some l := by
  induction l with
  | nil => rfl
  | cons a t ih => simp [bulkArgs, ih]

/-- Helper: dispatch of a well-formed command whose (upper-case) name resolves
to entry `E` with an argument count within `[minArgs, maxArgs]` reduces to the
subscriber-mode gate. -/
theorem run_command_resolved (sub : Bool) (name : List UInt8) (E : RedisCommandEntry)
    (args : List (List UInt8))
    (hu : name.map toupperB = name)
    (hg : RedisCommandStore.get name = some E)
    (hmin : E.minArgs ≤ (args.length : Int)) (hmax : (args.length : Int) ≤ E.maxArgs) :
    run_command sub (RObj.arr (RObj.bulk name :: args.map RObj.bulk)) =
      if sub && !E.allowInSubMode then
        DispatchResult.reply (bytes "-not allowed in subscription mode\r\n")
      else DispatchResult.handler E args := by
  have hb : bulkArgs (RObj.bulk name :: args.map RObj.bulk) = some (name :: args) := by
    simp [bulkArgs, bulkArgs_map]
  simp only [run_command, hb, hu, hg]
  rw [if_neg (by omega : ¬((args.length : Int) < E.minArgs ∨ (args.length : Int) > E.maxArgs))]

/-- C5 counterexample: in SubscriberMode, dispatch of `PUBLISH a b` does not
proceed to the bound handler — `PUBLISH` is not marked `allowInSubMode` in
`RedisCommandsList`, so it is rejected with the subscription-mode error. -/
theorem publish_rejected_in_sub_mode :
    run_command true
        (RObj.arr [RObj.bulk (bytes "PUBLISH"), RObj.bulk (bytes "a"), RObj.bulk (bytes "b")])
      = DispatchResult.reply (bytes "-not allowed in subscription mode\r\n") := by
  decide

/-- C5 (amended): for a connection in SubscriberMode, dispatch of SUBSCRIBE
and UNSUBSCRIBE (the only entries with `allowInSubMode`) proceeds to the bound
handler, while dispatch of PUBLISH, COMMAND, GET and SET — each with an
argument count its entry accepts — writes the subscription-mode error reply
and does not invoke the handler. -/
theorem subscriber_mode_gating (args : List (List UInt8)) :
    (1 ≤ args.length → args.length ≤ 4096 →
      run_command true (RObj.arr (RObj.bulk (bytes "SUBSCRIBE") :: args.map RObj.bulk))
        = DispatchResult.handler ⟨"SUBSCRIBE", 1, 4096, true⟩ args) ∧
    (args.length ≤ 4096 →
      run_command true (RObj.arr (RObj.bulk (bytes "UNSUBSCRIBE") :: args.map RObj.bulk))
        = DispatchResult.handler ⟨"UNSUBSCRIBE", 0, 4096, true⟩ args) ∧
    (args.length = 2 →
      run_command true (RObj.arr (RObj.bulk (bytes "PUBLISH") :: args.map RObj.bulk))
        = DispatchResult.reply (bytes "-not allowed in subscription mode\r\n")) ∧
    (args.length = 0 →
      run_command true (RObj.arr (RObj.bulk (bytes "COMMAND") :: args.map RObj.bulk))
        = DispatchResult.reply (bytes "-not allowed in subscription mode\r\n")) ∧
    (args.length = 1 →
      run_command true (RObj.arr (RObj.bulk (bytes "GET") :: args.map RObj.bulk))
        = DispatchResult.reply (bytes "-not allowed in subscription mode\r\n")) ∧
    (2 ≤ args.length → args.length ≤ 4 →
      run_command true (RObj.arr (RObj.bulk (bytes "SET") :: args.map RObj.bulk))
        = DispatchResult.reply (bytes "-not allowed in subscription mode\r\n")) := by
  refine ⟨fun h1 h2 => ?_, fun h2 => ?_, fun h => ?_, fun h => ?_, fun h => ?_,
    fun h1 h2 => ?_⟩
  · rw [run_command_resolved true (bytes "SUBSCRIBE") ⟨"SUBSCRIBE", 1, 4096, true⟩ args
      (by decide) (by decide) (by simp; omega) (by simp; omega)]
    rfl
  · rw [run_command_resolved true (bytes "UNSUBSCRIBE") ⟨"UNSUBSCRIBE", 0, 4096, true⟩ args
      (by decide) (by decide) (by simp) (by simp; omega)]
    rfl
  · rw [run_command_resolved true (bytes "PUBLISH") ⟨"PUBLISH", 2, 2, false⟩ args
      (by decide) (by decide) (by simp [h]) (by simp [h])]
    rfl
  · rw [run_command_resolved true (bytes "COMMAND") ⟨"COMMAND", 0, 0, false⟩ args
      (by decide) (by decide) (by simp [h]) (by simp [h])]
    rfl
  · rw [run_command_resolved true (bytes "GET") ⟨"GET", 1, 1, false⟩ args
      (by decide) (by decide) (by simp [h]) (by simp [h])]
    rfl
  · rw [run_command_resolved true (bytes "SET") ⟨"SET", 2, 4, false⟩ args
      (by decide) (by decide) (by simp; omega) (by simp; omega)]
    rfl

/-- Witness for C5 (amended) at concrete argument lists. -/
theorem subscriber_mode_gating_witness :
    run_command true
        (RObj.arr [RObj.bulk (bytes "SUBSCRIBE"), RObj.bulk (bytes "a"), RObj.bulk (bytes "b")])
      = DispatchResult.handler ⟨"SUBSCRIBE", 1, 4096, true⟩ [bytes "a", bytes "b"] ∧
    run_command true
        (RObj.arr [RObj.bulk (bytes "UNSUBSCRIBE"), RObj.bulk (bytes "a"), RObj.bulk (bytes "b")])
      = DispatchResult.handler ⟨"UNSUBSCRIBE", 0, 4096, true⟩ [bytes "a", bytes "b"] ∧
    run_command true
        (RObj.arr [RObj.bulk (bytes "PUBLISH"), RObj.bulk (bytes "a"), RObj.bulk (bytes "b")])
      = DispatchResult.reply (bytes "-not allowed in subscription mode\r\n") ∧
    run_command true (RObj.arr [RObj.bulk (bytes "COMMAND")])
      = DispatchResult.reply (bytes "-not allowed in subscription mode\r\n") ∧
    run_command true (RObj.arr [RObj.bulk (bytes "GET"), RObj.bulk (bytes "k")])
      = DispatchResult.reply (bytes "-not allowed in subscription mode\r\n") ∧
    run_command true
        (RObj.arr [RObj.bulk (bytes "SET"), RObj.bulk (bytes "k"), RObj.bulk (bytes "v")])
      = DispatchResult.reply (bytes "-not allowed in subscription mode\r\n") :=
  ⟨(subscriber_mode_gating [bytes "a", bytes "b"]).1 (by decide) (by decide),
   (subscriber_mode_gating [bytes "a", bytes "b"]).2.1 (by decide),
   (subscriber_mode_gating [bytes "a", bytes "b"]).2.2.1 (by decide),
   (subscriber_mode_gating []).2.2.2.1 (by decide),
   (subscriber_mode_gating [bytes "k"]).2.2.2.2.1 (by decide),
   (subscriber_mode_gating [bytes "k", bytes "v"]).2.2.2.2.2 (by decide) (by decide)⟩

/-- C10: a SUBSCRIBE naming a room already in the connection's room set
leaves both the room's registry subscriber list and the connection's room set
unchanged (no duplicate is added), yet still writes the 3-element
`["subscribe", roomName, count]` reply with `count` the unchanged size of the
connection's room set — shown for the loop body processing any such room, and
for a whole single-room SUBSCRIBE command. -/
theorem subscribe_existing_room (self : Nat) (st : ConnState) (reg : Registry)
    (ws : List (List UInt8)) (room : List UInt8) (h : room ∈ st.rooms) :
    subscribeOne self (st, reg, ws) room
      = (st, reg, ws ++ [subscribeReply room st.rooms.length]) ∧
    run_command_subscribe self st reg [room]
      = ({ st with subsriberMode := true }, reg, [subscribeReply room st.rooms.length]) := by
  constructor
  · simp [subscribeOne, h]
  · simp [run_command_subscribe, subscribeOne, h]

/-- Witness for C10: re-subscribing to `room1` changes nothing and replies
with the unchanged count 1. -/
theorem subscribe_existing_room_witness :
    subscribeOne 0 (⟨false, [bytes "room1"]⟩, [(bytes "room1", [0])], []) (bytes "room1")
      = (⟨false, [bytes "room1"]⟩, [(bytes "room1", [0])],
          [subscribeReply (bytes "room1") 1]) ∧
    run_command_subscribe 0 ⟨false, [bytes "room1"]⟩ [(bytes "room1", [0])] [bytes "room1"]
      = (⟨true, [bytes "room1"]⟩, [(bytes "room1", [0])],
          [subscribeReply (bytes "room1") 1]) :=
  subscribe_existing_room 0 ⟨false, [bytes "room1"]⟩ [(bytes "room1", [0])] []
    (bytes "room1") (by decide)

/-- C1: evaluation of PUBLISH at the failing input (a room with no registry
entry).  The reply is the decimal rendering of the *uninitialized* local
`nsent` (here sampled at 7), so it is not the Integer reply 0 the claim (and
the spec) require; no subscriber receives anything.  The same model also
shows the present-room half of the claim behaving as described: the
`["message", room, payload]` Array goes to each registered connection in
registry order and the reply counts them. -/
theorem publish_absent_room_uninitialized :
    (run_command_publish [] (bytes "room1") (bytes "hello") 7).sends = [] ∧
    (run_command_publish [] (bytes "room1") (bytes "hello") 7).reply = bytes ":7\r\n" ∧
    bytes ":7\r\n" ≠ bytes ":0\r\n" ∧
    (run_command_publish [(bytes "room1", [4, 9])] (bytes "room1") (bytes "hello") 7).sends
      = [(4, publishMessage (bytes "room1") (bytes "hello")),
         (9, publishMessage (bytes "room1") (bytes "hello"))] ∧
    (run_command_publish [(bytes "room1", [4, 9])] (bytes "room1") (bytes "hello") 7).reply
      = bytes ":2\r\n" :=
  ⟨rfl, rfl, by decide, rfl, rfl⟩

/-- C6: the UNSUBSCRIBE handler is an unfinished stub: for every connection
state, registry and argument list it removes nothing, writes no reply, and
never leaves SubscriberMode. -/
theorem unsubscribe_stub_noop (st : ConnState) (reg : Registry)
    (args : List (List UInt8)) :
    run_command_unsubscribe st reg args = (st, reg, []) :=
  rfl

/-- C4: evaluation of `IOHandler::write` at a partial synchronous write.
With an empty output buffer, write budget 7 and input `"0123456789"`, the
kernel accepts 7 bytes; the call returns the full input length 10, but the
bytes appended to the output buffer are `"345"` (offsets 3..5, because the
code advances the data pointer by the *remaining* length), not the unsent
suffix `"789"`. -/
theorem iohandler_write_wrong_suffix :
    (IOHandler.write ⟨[], 7⟩ (bytes "0123456789") [] 7 true).1 = 10 ∧
    (IOHandler.write ⟨[], 7⟩ (bytes "0123456789") [] 7 true).2.write_buf = bytes "345" ∧
    bytes "345" ≠ bytes "789" :=
  ⟨rfl, rfl, by decide⟩

/-- C9: evaluation of the timer interface at the failing input.  Two
`setTimeout` calls (100 ms and 200 ms) return fresh ids 1 and 2, but the
kernel table holds a single timer registered under the hardcoded ident 1 with
the hardcoded 5000 ms period — the second registration overwrote the first,
no timer fires after the requested delay, and `clearTimeout` with the
returned id 2 fails (returns 1) leaving the timer pending. -/
theorem setTimeout_hardcoded_ident_and_period :
    (Poller.setTimeout ⟨⟨[]⟩, 0⟩ 100).1 = 1 ∧
    ((Poller.setTimeout ⟨⟨[]⟩, 0⟩ 100).2.setTimeout 200).1 = 2 ∧
    ((Poller.setTimeout ⟨⟨[]⟩, 0⟩ 100).2.setTimeout 200).2.kq.timers = [(1, 5000)] ∧
    (((Poller.setTimeout ⟨⟨[]⟩, 0⟩ 100).2.setTimeout 200).2.clearTimeout 2).1 = 1 ∧
    (((Poller.setTimeout ⟨⟨[]⟩, 0⟩ 100).2.setTimeout 200).2.clearTimeout 2).2.kq.timers
      = [(1, 5000)] := by
  refine ⟨rfl, rfl, by decide, by decide, by decide⟩
